import Mathlib

/-!
Verification of the AnayaTaxi location-resolution engine.

The definitions below are a shallow embedding of the TypeScript sources:

* `src/utils/FreeLocationService.ts` — client-side reverse geocoding entry
  point (current proxy variant and the legacy direct-Nominatim variant).
* `src/app/api/booking/route.ts` (geocode GET handler) — server-side
  fallback resolver: Nominatim primary, BigDataCloud backup, coordinate
  fallback.
* `src/app/api/search-streets/route.ts` — street search endpoint with its
  result filter and 6-element cap.
* `MalmoStreetService` — client street-search service with bounds and
  address formatting.
* The `TaxiBookingApp` component — map click handling, GPS handling,
  reset, suggestion selection, debounce: modelled as pure state
  transformers over an explicit application state, with small operational
  models for the asynchronous interleavings.

Coordinates are modelled as rationals; network calls become explicit
outcome parameters (`Except`/`Option`); JavaScript string truthiness is
`s ≠ ""`.
-/

namespace AnayaTaxi

/-! ### Numeric formatting: JS `Number.prototype.toFixed` -/

/-- `roundAwayDiv a b` is `a / b` rounded to the nearest integer, halves
away from zero, computed with integer arithmetic only. -/
def roundAwayDiv (a : ℤ) (b : ℕ) : ℤ :=
  if a < 0 then -(((-a) * 2 + b).fdiv (2 * b)) else (a * 2 + b).fdiv (2 * b)

/-- Left-pad a string of digits with zeros up to width `w`. -/
def padZeros (w : ℕ) (s : String) : String :=
  if s.length < w then String.mk (List.replicate (w - s.length) '0') ++ s else s

/-- Model of JS `x.toFixed(d)`: decimal string with exactly `d` fractional
digits, rounding halves away from zero. Works on the rational's numerator
and denominator so every step is integer arithmetic. -/
def toFixed (d : ℕ) (x : ℚ) : String :=
  let scaled : ℤ := roundAwayDiv (x.num * (10 : ℤ) ^ d) x.den
  let mag : ℕ := scaled.natAbs
  let intPart : ℕ := mag / 10 ^ d
  let fracPart : ℕ := mag % 10 ^ d
  let sign : String := if scaled < 0 then "-" else ""
  if d = 0 then sign ++ toString intPart
  else sign ++ toString intPart ++ "." ++ padZeros d (toString fracPart)

/-- JS truthiness of an optional string: present and non-empty. -/
def strTruthy : Option String → Bool
  | some s => !s.isEmpty
  | none => false

/-! ### `FreeLocationService.getAddressFromCoords` (current proxy variant)

The current variant fetches `/api/geocode`; on a non-OK response it
throws and the catch returns the glyph-prefixed 4-decimal coordinate
string; on an OK response it returns `data.address` when
`data.success && data.address`, else the same fallback. -/

/-- JSON body returned by the `/api/geocode` proxy endpoint. -/
structure GeocodeApiData where
  success : Bool
  address : Option String
  deriving DecidableEq

/-- Outcome of a `fetch`: either an exception (network error, timeout,
JSON parse failure), or a response with its HTTP `ok` flag and parsed
body. -/
inductive FetchOutcome (α : Type) where
  | exn : FetchOutcome α
  | resp (ok : Bool) (data : α) : FetchOutcome α
  deriving DecidableEq

/-- The coordinate fallback string of the current variant:
`📍 lat.toFixed(4), lng.toFixed(4)`. -/
def coordFallback (lat lng : ℚ) : String :=
  "📍 " ++ toFixed 4 lat ++ ", " ++ toFixed 4 lng

/-- `FreeLocationService.getAddressFromCoords` (current proxy variant),
with the fetch outcome made explicit. -/
def getAddressFromCoords (lat lng : ℚ) (f : FetchOutcome GeocodeApiData) :
    String :=
  match f with
  | .exn => coordFallback lat lng
  | .resp ok data =>
    if !ok then
      coordFallback lat lng
    else if data.success && strTruthy data.address then
      data.address.getD ""
    else
      coordFallback lat lng

/-- Whether a fetch outcome counts as a failed resolution for the current
variant (every path that does not yield a usable address). -/
def geocodeFetchFailed : FetchOutcome GeocodeApiData → Bool
  | .exn => true
  | .resp ok data => !ok || !(data.success && strTruthy data.address)

/-! ### `FreeLocationService.getAddressFromCoords` (legacy variant)

The legacy variant calls Nominatim directly: it never checks
`response.ok`, returns `data.display_name || lat.toFixed(4), lng.toFixed(4)`
on a parsed response, and returns `lat.toFixed(6), lng.toFixed(6)` from its
catch block. Neither fallback carries the 📍 glyph. -/

/-- `FreeLocationService.getAddressFromCoords` (legacy direct-Nominatim
variant); the payload is the optional `display_name`. -/
def getAddressFromCoordsLegacy (lat lng : ℚ)
    (f : FetchOutcome (Option String)) : String :=
  match f with
  | .exn => toFixed 6 lat ++ ", " ++ toFixed 6 lng
  | .resp _ data =>
    if strTruthy data then data.getD ""
    else toFixed 4 lat ++ ", " ++ toFixed 4 lng

/-! ### Server geocode route (`GET` in `src/app/api/booking/route.ts`)

Primary: OSM Nominatim (`display_name`); backup: BigDataCloud, used only
when the primary produced no address; final fallback: the glyph-prefixed
4-decimal coordinate string. -/

/-- Parsed BigDataCloud reverse-geocode body (the fields the route
reads). -/
structure BackupData where
  city : Option String
  locality : Option String
  principalSubdivision : Option String
  countryName : Option String
  deriving DecidableEq

/-- Replace the first occurrence of `pat` in `s` by `rep` (JS
`String.prototype.replace` with a string pattern), on character lists. -/
def replaceFirstAux (pat rep : List Char) : List Char → List Char
  | [] => if pat.isEmpty then rep else []
  | c :: rest =>
    if pat.isPrefixOf (c :: rest) then rep ++ (c :: rest).drop pat.length
    else c :: replaceFirstAux pat rep rest

/-- Replace the first occurrence of `pat` in `s` by `rep`. -/
def replaceFirst (s pat rep : String) : String :=
  String.mk (replaceFirstAux pat.data rep.data s.data)

/-- Address the backup branch assembles:
`(locality || city), (principalSubdivision || ''), countryName` with the
first `", ,"` collapsed to `","`. -/
def backupAddress (b : BackupData) : String :=
  let locality := if strTruthy b.locality then b.locality.getD ""
    else b.city.getD ""
  let subdiv := if strTruthy b.principalSubdivision then
    b.principalSubdivision.getD "" else ""
  replaceFirst (locality ++ ", " ++ subdiv ++ ", " ++ b.countryName.getD "")
    ", ," ","

/-- The primary (OSM) attempt: the address it contributes, or `""`.
`osm = .resp ok (some s)` models `osmResponse.ok` and
`osmData.display_name`. -/
def primaryAddress (osm : FetchOutcome (Option String)) : String :=
  match osm with
  | .exn => ""
  | .resp ok data =>
    if ok && strTruthy data then data.getD "" else ""

/-- The backup (BigDataCloud) attempt: the address it contributes, or
`""`. -/
def backupAttempt (backup : FetchOutcome BackupData) : String :=
  match backup with
  | .exn => ""
  | .resp ok data =>
    if ok && strTruthy data.city && strTruthy data.countryName then
      backupAddress data
    else ""

/-- The server geocode route: returns the resolved address together with
whether the backup provider was invoked. -/
def geocodeRoute (lat lng : ℚ) (osm : FetchOutcome (Option String))
    (backup : FetchOutcome BackupData) : String × Bool :=
  let address := primaryAddress osm
  if address ≠ "" then (address, false)
  else
    let address := backupAttempt backup
    if address ≠ "" then (address, true)
    else (coordFallback lat lng, true)

/-! ### Street search endpoint (`GET` in `src/app/api/search-streets/route.ts`)

The route queries Nominatim with `limit=8`, filters the returned items
with `isStreet || isInMalmo`, takes the first 6, and maps them to the
response shape. -/

/-- Lower-casing of a string, character by character (model of JS
`toLowerCase` for the characters that occur here). -/
def strToLower (s : String) : String := String.mk (s.data.map Char.toLower)

/-- Whether `needle` occurs as a contiguous sublist of `hay`. -/
def containsSub (hay needle : List Char) : Bool :=
  match hay with
  | [] => needle.isEmpty
  | _ :: t => needle.isPrefixOf hay || containsSub t needle

/-- Model of JS `hay.includes(needle)`. -/
def strContains (hay needle : String) : Bool := containsSub hay.data needle.data

/-- An item returned by Nominatim's search API (the fields the route
reads). `itemClass` stands for the JSON field `class`. -/
structure NominatimItem where
  display_name : String
  lat : ℚ
  lon : ℚ
  type : String
  itemClass : String
  deriving DecidableEq

/-- The route's `isStreet` test: `item.class === 'highway' ||
item.class === 'place' || item.type === 'residential'`. -/
def isStreet (item : NominatimItem) : Bool :=
  item.itemClass == "highway" || item.itemClass == "place" ||
    item.type == "residential"

/-- The route's `isInMalmo` test: the lower-cased display name contains
`"malmö"` or `"malmo"`. -/
def isInMalmoText (item : NominatimItem) : Bool :=
  strContains (strToLower item.display_name) "malmö" ||
    strContains (strToLower item.display_name) "malmo"

/-- One element of the route's response `results` array. -/
structure ProcessedResult where
  display_name : String
  lat : ℚ
  lon : ℚ
  address : String
  full_address : String
  type : String
  itemClass : String
  deriving DecidableEq

/-- JS `s.split(',')[0]`: the part of `s` before the first comma (the
whole of `s` when it has none). -/
def beforeFirstComma (s : String) : String :=
  String.mk (s.data.takeWhile (fun c => c != ','))

/-- The route's `.map` step: project a retrieved item to the response
shape; `address` is the part of `display_name` before the first comma. -/
def toProcessed (item : NominatimItem) : ProcessedResult :=
  { display_name := item.display_name
    lat := item.lat
    lon := item.lon
    address := beforeFirstComma item.display_name
    full_address := item.display_name
    type := item.type
    itemClass := item.itemClass }

/-- The route's result pipeline: filter by `isStreet || isInMalmo`, keep
the first 6, map to the response shape. -/
def processResults (data : List NominatimItem) : List ProcessedResult :=
  ((data.filter (fun item => isStreet item || isInMalmoText item)).take 6).map
    toProcessed

/-! ### `MalmoStreetService` -/

namespace MalmoStreetService

/-- North edge of the `MALMÖ_BOUNDS` box (55.65). -/
def boundsNorth : ℚ := mkRat 5565 100

/-- South edge of the `MALMÖ_BOUNDS` box (55.55). -/
def boundsSouth : ℚ := mkRat 5555 100

/-- East edge of the `MALMÖ_BOUNDS` box (13.1). -/
def boundsEast : ℚ := mkRat 131 10

/-- West edge of the `MALMÖ_BOUNDS` box (12.9). -/
def boundsWest : ℚ := mkRat 129 10

/-- `MalmoStreetService.isInMalmo`: whether a coordinate lies inside the
Malmö bounding box. -/
def isInMalmo (lat lon : ℚ) : Bool :=
  decide (boundsSouth ≤ lat) && decide (lat ≤ boundsNorth) &&
    decide (boundsWest ≤ lon) && decide (lon ≤ boundsEast)

/-- `MalmoStreetService.formatMalmoAddress`: append `", Malmö, Sweden"`
unless the address already mentions Malmö. -/
def formatMalmoAddress (address : String) : String :=
  if !strContains (strToLower address) "malmö" &&
      !strContains (strToLower address) "malmo" then
    address ++ ", Malmö, Sweden"
  else address

/-- `MalmoStreetService.searchStreets`, with the fetch outcome explicit.
Returns the suggestion list together with whether a provider request was
issued. A query shorter than 2 characters returns `[]` without any
request; a non-OK response throws into the catch, which returns `[]`. -/
def searchStreets (query : String)
    (f : FetchOutcome (Option (List ProcessedResult))) :
    List ProcessedResult × Bool :=
  if query.isEmpty || query.length < 2 then ([], false)
  else
    match f with
    | .exn => ([], true)
    | .resp ok results =>
      if !ok then ([], true)
      else (results.getD [], true)

end MalmoStreetService

/-! ### `TaxiBookingApp` component state

The React state of the booking component, restricted to the fields the
location-resolution logic touches, with each handler embedded as a pure
state transformer. Asynchronous resolutions become explicit outcome
parameters; the interleaved executions needed for the concurrency claims
get separate small operational models further below. -/

/-- Which address field a map click will populate next
(`nextLocationSetting`). -/
inductive Slot where
  | pickup
  | dropoff
  deriving DecidableEq

/-- The opposite slot. -/
def Slot.other : Slot → Slot
  | .pickup => .dropoff
  | .dropoff => .pickup

/-- Marker slots (the `type` field of `MapMarker` in `types.ts`). -/
inductive MarkerType where
  | current
  | demo
  | destination
  | pickup
  | dropoff
  deriving DecidableEq

/-- The marker type a click for a given slot produces. -/
def Slot.markerType : Slot → MarkerType
  | .pickup => .pickup
  | .dropoff => .dropoff

/-- A map marker. -/
structure MapMarker where
  lat : ℚ
  lng : ℚ
  title : String
  type : MarkerType
  deriving DecidableEq

/-- `LocationData` from `types.ts`. -/
structure LocationData where
  lat : ℚ
  lng : ℚ
  address : String
  deriving DecidableEq

/-- The component state relevant to location resolution. -/
structure AppState where
  pickupAddress : String
  dropoffAddress : String
  nextLocationSetting : Slot
  mapMarkers : List MapMarker
  streetSuggestions : List ProcessedResult
  showPickup : Bool
  showDropoff : Bool
  currentLocation : Option LocationData
  mapCenter : ℚ × ℚ
  mapZoom : ℕ
  deriving DecidableEq

/-- The initial component state: both fields empty, armed for pickup, no
markers, Malmö map center. -/
def initState : AppState :=
  { pickupAddress := ""
    dropoffAddress := ""
    nextLocationSetting := .pickup
    mapMarkers := []
    streetSuggestions := []
    showPickup := false
    showDropoff := false
    currentLocation := none
    mapCenter := (mkRat 556050 10000, mkRat 130038 10000)
    mapZoom := 13 }

/-- `setValue` on an address field. -/
def setField (f : Slot) (v : String) (s : AppState) : AppState :=
  match f with
  | .pickup => { s with pickupAddress := v }
  | .dropoff => { s with dropoffAddress := v }

/-- Read an address field. -/
def getField (f : Slot) (s : AppState) : String :=
  match f with
  | .pickup => s.pickupAddress
  | .dropoff => s.dropoffAddress

/-- The marker title a click for a slot uses. -/
def clickMarkerTitle : Slot → String
  | .pickup => "🚕 Pickup Location"
  | .dropoff => "🏁 Dropoff Location"

/-- The marker-list update shared by `handleMapClick` and
`selectStreetSuggestion`: drop markers of the slot being set and demo
markers, then append the new marker. -/
def upsertSlotMarker (σ : Slot) (m : MapMarker) (l : List MapMarker) :
    List MapMarker :=
  l.filter (fun mk => mk.type != σ.markerType && mk.type != .demo) ++ [m]

/-- `handleMapClick` in the current component, run to completion as one
step (the sequential model: the resolution settles, with outcome `res`,
before anything else runs). Captures `nextLocationSetting` at entry,
writes the interim then the final field value, replaces the slot's
marker, and toggles the armed slot — on the success path and on the
catch path alike. -/
def handleMapClick (lat lng : ℚ) (res : Except Unit String) (s : AppState) :
    AppState :=
  let currentSetting := s.nextLocationSetting
  let s := setField currentSetting "🔍 Getting address..." s
  let address :=
    match res with
    | .ok a => a
    | .error _ => "📍 " ++ toFixed 4 lat ++ ", " ++ toFixed 4 lng
  let s := setField currentSetting address s
  let newMarker : MapMarker :=
    ⟨lat, lng, clickMarkerTitle currentSetting, currentSetting.markerType⟩
  let s := { s with
    mapMarkers := upsertSlotMarker currentSetting newMarker s.mapMarkers }
  { s with nextLocationSetting := currentSetting.other }

/-- The success path of `getCurrentLocation` (current component), after
the GPS fix and the address resolution produced `address`: store the
location, recenter, replace the whole marker list with the single
`current` marker, and write the pickup field unconditionally. -/
def getCurrentLocationSuccess (lat lng : ℚ) (address : String)
    (s : AppState) : AppState :=
  { s with
    currentLocation := some ⟨lat, lng, address⟩
    mapCenter := (lat, lng)
    mapZoom := 17
    mapMarkers := [⟨lat, lng, "📍 Your Exact Location", .current⟩]
    pickupAddress := address }

/-- JS `String.prototype.trim`: strip leading and trailing whitespace,
on character lists. -/
def jsTrim (s : String) : String :=
  String.mk
    (((s.data.dropWhile Char.isWhitespace).reverse.dropWhile
      Char.isWhitespace).reverse)

/-- The `useEffect` reacting to `currentLocation`: recenter on the fix
and fill the pickup field only when it is empty or whitespace. -/
def autoCenterEffect (s : AppState) : AppState :=
  match s.currentLocation with
  | none => s
  | some loc =>
    let s := { s with mapCenter := (loc.lat, loc.lng), mapZoom := 15 }
    if s.pickupAddress.isEmpty || (jsTrim s.pickupAddress).isEmpty then
      { s with pickupAddress := loc.address }
    else s

/-- `resetLocationSelection` (current component): re-arm pickup, drop
pickup/dropoff/demo markers, clear both fields. -/
def resetLocationSelection (s : AppState) : AppState :=
  { s with
    nextLocationSetting := .pickup
    mapMarkers := s.mapMarkers.filter (fun m =>
      m.type != MarkerType.pickup && m.type != MarkerType.dropoff &&
        m.type != MarkerType.demo)
    pickupAddress := ""
    dropoffAddress := "" }

/-- `resetLocationSelection` (earlier component variant): identical except
demo markers are kept. -/
def resetLocationSelectionV1 (s : AppState) : AppState :=
  { s with
    nextLocationSetting := .pickup
    mapMarkers := s.mapMarkers.filter (fun m =>
      m.type != MarkerType.pickup && m.type != MarkerType.dropoff)
    pickupAddress := ""
    dropoffAddress := "" }

/-- `selectStreetSuggestion`: write the formatted address into the chosen
field, replace that slot's marker, recenter, and clear the suggestion
list. -/
def selectStreetSuggestion (sug : ProcessedResult) (field : Slot)
    (s : AppState) : AppState :=
  let address := MalmoStreetService.formatMalmoAddress sug.address
  let s := setField field address s
  let newMarker : MapMarker :=
    ⟨sug.lat, sug.lon, clickMarkerTitle field, field.markerType⟩
  let s := { s with
    mapMarkers := upsertSlotMarker field newMarker s.mapMarkers
    mapCenter := (sug.lat, sug.lon)
    mapZoom := 16
    streetSuggestions := [] }
  match field with
  | .pickup => { s with showPickup := false }
  | .dropoff => { s with showDropoff := false }

/-- `setDemoLocation`: replace the whole marker list with the single demo
marker. -/
def setDemoLocation (s : AppState) : AppState :=
  let demo : LocationData :=
    ⟨mkRat 377749 10000, mkRat (-1224194) 10000,
      "San Francisco, CA, USA (Demo Location)"⟩
  { s with
    currentLocation := some demo
    mapCenter := (demo.lat, demo.lng)
    mapZoom := 15
    mapMarkers := [⟨demo.lat, demo.lng, "Demo Location - San Francisco",
      .demo⟩] }

/-- Set the suggestion-dropdown visibility flag of one field. -/
def setShow (f : Slot) (b : Bool) (s : AppState) : AppState :=
  match f with
  | .pickup => { s with showPickup := b }
  | .dropoff => { s with showDropoff := b }

/-- The component's `searchStreets`, run to completion as one step with
the service outcome `svc` explicit; the second component records whether
a provider call was issued. A query shorter than 2 characters clears the
suggestions synchronously without any call; a service failure is caught
and also clears them. -/
def searchStreetsSync (query : String) (field : Slot)
    (svc : Except Unit (List ProcessedResult)) (s : AppState) :
    AppState × Bool :=
  if query.isEmpty || query.length < 2 then
    (setShow field false { s with streetSuggestions := [] }, false)
  else
    match svc with
    | .ok suggestions =>
      (setShow field (suggestions.length > 0)
        { s with streetSuggestions := suggestions }, true)
    | .error _ =>
      (setShow field false { s with streetSuggestions := [] }, true)

/-! ### Debounce timeline (`handleAddressChange`)

`handleAddressChange` clears any pending timer and schedules
`searchStreets` 300ms later. Over a time-stamped list of keystroke
events (times nondecreasing), a timer fires exactly when no further
event occurs within 300ms; `searchStreets` then issues a provider call
exactly when the fired query has length at least 2. -/

/-- A keystroke event: the time `handleAddressChange` ran and the query
it carried. -/
structure TypeEvent where
  time : ℕ
  query : String
  deriving DecidableEq

/-- The queries whose debounce timer actually fires: an event's timer is
cleared exactly when the next event arrives within 300ms. -/
def firedQueries : List TypeEvent → List String
  | [] => []
  | [e] => [e.query]
  | e :: e' :: rest =>
    if e'.time < e.time + 300 then firedQueries (e' :: rest)
    else e.query :: firedQueries (e' :: rest)

/-- The queries for which a provider call is issued: fired queries that
pass the `query.length < 2` guard in `searchStreets`. -/
def providerCalls (evs : List TypeEvent) : List String :=
  (firedQueries evs).filter (fun q => 2 ≤ q.length)

/-! ### Suggestion responses in arrival order (`searchStreets` continuations)

Each long-enough keystroke query issues a request; when a response
arrives, the component's continuation runs
`setStreetSuggestions(suggestions)` unconditionally — there is no
sequence number and no staleness check. The machine below runs a list of
issue/arrive events over a table of requests. -/

/-- A suggestion request: the query and the response the provider will
eventually deliver for it. -/
structure SearchRequest where
  query : String
  response : List ProcessedResult
  deriving DecidableEq

/-- Events of the suggestion machine: request `i` is issued (the
keystroke's debounce fired), or request `i`'s response arrives. -/
inductive SearchEvent where
  | issue (i : ℕ)
  | arrive (i : ℕ)
  deriving DecidableEq

/-- State of the suggestion machine: indexes of in-flight requests and
the UI-visible suggestion list. -/
structure SearchState where
  inFlight : List ℕ
  suggestions : List ProcessedResult
  deriving DecidableEq

/-- One step of the suggestion machine. Issuing a short query clears the
list synchronously; issuing a long one records it in flight; an arrival
of an in-flight request applies its response unconditionally, as the
code's continuation does. -/
def searchStep (reqs : List SearchRequest) (s : SearchState) :
    SearchEvent → SearchState
  | .issue i =>
    match reqs.get? i with
    | none => s
    | some r =>
      if r.query.isEmpty || r.query.length < 2 then
        { s with suggestions := [] }
      else { s with inFlight := s.inFlight ++ [i] }
  | .arrive i =>
    if s.inFlight.contains i then
      { inFlight := s.inFlight.erase i
        suggestions := ((reqs.get? i).map SearchRequest.response).getD [] }
    else s

/-- Run the suggestion machine over a list of events. -/
def runSearch (reqs : List SearchRequest) (evs : List SearchEvent)
    (s : SearchState) : SearchState :=
  evs.foldl (searchStep reqs) s

/-! ### Interleaved map clicks

`handleMapClick` suspends at the `await` on the resolver: the part
before it (capturing `nextLocationSetting` and writing the interim field
value) runs at click time, the rest (final field value, marker, slot
toggle) when the resolution settles. The machine below schedules these
two phases of each click explicitly. -/

deriving instance DecidableEq for Except

/-- A map click: its coordinate and the outcome its resolution will
eventually produce. -/
structure Click where
  lat : ℚ
  lng : ℚ
  res : Except Unit String
  deriving DecidableEq

/-- The two phases of click `i`: the synchronous prefix up to the
`await`, and the continuation after the resolution settles. -/
inductive ClickPhase where
  | start (i : ℕ)
  | finish (i : ℕ)
  deriving DecidableEq

/-- State of the click machine: the component state plus, for each
started click, the `nextLocationSetting` value it captured. -/
structure ClickRun where
  app : AppState
  captured : List (ℕ × Slot)
  deriving DecidableEq

/-- The slot click `i` captured at its start, if it has started. -/
def lookupCaptured (l : List (ℕ × Slot)) (i : ℕ) : Option Slot :=
  (l.find? (fun p => p.1 == i)).map (fun p => p.2)

/-- One step of the click machine. -/
def clickStep (clicks : List Click) (r : ClickRun) : ClickPhase → ClickRun
  | .start i =>
    match clicks.get? i with
    | none => r
    | some _ =>
      let σ := r.app.nextLocationSetting
      { app := setField σ "🔍 Getting address..." r.app
        captured := r.captured ++ [(i, σ)] }
  | .finish i =>
    match clicks.get? i, lookupCaptured r.captured i with
    | some c, some σ =>
      let address :=
        match c.res with
        | .ok a => a
        | .error _ => "📍 " ++ toFixed 4 c.lat ++ ", " ++ toFixed 4 c.lng
      let s := setField σ address r.app
      let s := { s with
        mapMarkers := upsertSlotMarker σ
          ⟨c.lat, c.lng, clickMarkerTitle σ, σ.markerType⟩ s.mapMarkers }
      { r with app := { s with nextLocationSetting := σ.other } }
    | _, _ => r

/-- Run the click machine over a schedule of phases. -/
def runClicks (clicks : List Click) (sched : List ClickPhase)
    (r : ClickRun) : ClickRun :=
  sched.foldl (clickStep clicks) r

/-- The armed-slot values observed at the clicks, in click order. -/
def observedSlots (r : ClickRun) : List Slot :=
  r.captured.map (fun p => p.2)

/-- Sequential processing of a list of clicks: each click's resolution
settles before the next click occurs. Returns the final state and the
armed-slot values observed at the clicks. -/
def runSeq : List Click → AppState → AppState × List Slot
  | [], s => (s, [])
  | c :: cs, s =>
    let σ := s.nextLocationSetting
    let s' := handleMapClick c.lat c.lng c.res s
    let r := runSeq cs s'
    (r.1, σ :: r.2)

/-- The alternating slot sequence of length `n` starting at `σ`. -/
def altSeq : ℕ → Slot → List Slot
  | 0, _ => []
  | n + 1, σ => σ :: altSeq n σ.other

/-- The number of markers of a given slot type in a marker list. -/
def countType (t : MarkerType) (l : List MapMarker) : ℕ :=
  (l.filter (fun m => m.type == t)).length

/-- The per-slot uniqueness invariant: at most one marker of each slot
type. -/
def markersOk (l : List MapMarker) : Bool :=
  decide (countType .current l ≤ 1) && decide (countType .demo l ≤ 1) &&
    decide (countType .destination l ≤ 1) &&
    decide (countType .pickup l ≤ 1) && decide (countType .dropoff l ≤ 1)

/-! ## Supporting lemmas -/

/-- A string starting with a non-empty literal is non-empty. -/
theorem coordFallback_ne_empty (lat lng : ℚ) : coordFallback lat lng ≠ "" := by
  intro h
  have h2 := congrArg String.length h
  simp only [coordFallback, String.length_append] at h2
  rw [show ("📍 " : String).length = 2 from rfl,
    show (", " : String).length = 2 from rfl,
    show ("" : String).length = 0 from rfl] at h2
  omega

/-! ## C10 -/

/-- C10: for every list of items retrieved from the upstream provider
(which is asked for up to 8), the street-search route's response array
contains at most 6 results. -/
theorem searchStreets_results_le_six (data : List NominatimItem) :
    (processResults data).length ≤ 6 := by
  simp only [processResults, List.length_map, List.length_take]
  omega

/-! ## C2 -/

/-- C2: when the primary provider (OSM Nominatim) returns a usable
(non-empty) display name, the geocode route returns it verbatim and the
backup provider is not invoked; and whenever the backup is invoked, the
primary had yielded no address. -/
theorem geocodeRoute_primary_wins (lat lng : ℚ) (d : String) (hd : d ≠ "")
    (backup : FetchOutcome BackupData) :
    geocodeRoute lat lng (.resp true (some d)) backup = (d, false) ∧
    ∀ osm, (geocodeRoute lat lng osm backup).2 = true →
      primaryAddress osm = "" := by
  constructor
  · simp [geocodeRoute, primaryAddress, strTruthy, String.isEmpty_iff, hd]
  · intro osm h
    by_cases hp : primaryAddress osm = ""
    · exact hp
    · exfalso
      simp [geocodeRoute, hp] at h

/-- C2 witness: a concrete primary success is returned verbatim with the
backup skipped. -/
theorem geocodeRoute_primary_wins_witness :
    ("Stortorget 1, Malmö, Sverige" ≠ "") ∧
    geocodeRoute (mkRat 556 10) (mkRat 130 10)
      (.resp true (some "Stortorget 1, Malmö, Sverige")) .exn
      = ("Stortorget 1, Malmö, Sverige", false) :=
  ⟨by decide,
    (geocodeRoute_primary_wins (mkRat 556 10) (mkRat 130 10)
      "Stortorget 1, Malmö, Sverige" (by decide) .exn).1⟩

/-! ## C1 -/

/-- C1 (amended): the current proxy entry point `getAddressFromCoords`
always returns a non-empty string, and whenever the resolution failed
(exception, non-OK response, or unsuccessful payload) the result is
exactly the 📍-prefixed 4-decimal coordinate string; the legacy variant,
however, returns the bare 6-decimal coordinates from its catch block and
the bare 4-decimal coordinates when `display_name` is missing, neither
carrying the glyph. -/
theorem getAddressFromCoords_total (lat lng : ℚ)
    (f : FetchOutcome GeocodeApiData) :
    getAddressFromCoords lat lng f ≠ "" ∧
    (geocodeFetchFailed f = true →
      getAddressFromCoords lat lng f = coordFallback lat lng) ∧
    getAddressFromCoordsLegacy lat lng .exn
      = toFixed 6 lat ++ ", " ++ toFixed 6 lng ∧
    ∀ ok, getAddressFromCoordsLegacy lat lng (.resp ok none)
      = toFixed 4 lat ++ ", " ++ toFixed 4 lng := by
  refine ⟨?_, ?_, rfl, fun _ => rfl⟩
  · match f with
    | .exn => exact coordFallback_ne_empty lat lng
    | .resp ok ⟨succ, addr⟩ =>
      simp only [getAddressFromCoords]
      rcases ok with _ | _
      · simp [coordFallback_ne_empty lat lng]
      · rcases addr with _ | a
        · simp [strTruthy, coordFallback_ne_empty lat lng]
        · by_cases ha : a = ""
          · subst ha
            simp [strTruthy, coordFallback_ne_empty lat lng,
              show ("" : String).isEmpty = true from rfl]
          · rcases succ with _ | _
            · simp [coordFallback_ne_empty lat lng]
            · have hie : a.isEmpty = false := by
                rcases he : a.isEmpty with _ | _
                · rfl
                · exact absurd ((String.isEmpty_iff a).mp he) ha
              have htr : strTruthy (some a) = true := by
                simp [strTruthy, hie]
              simp [htr, ha]
  · intro hfail
    match f with
    | .exn => rfl
    | .resp ok data =>
      simp only [geocodeFetchFailed] at hfail
      simp only [getAddressFromCoords]
      rcases ok with _ | _
      · simp
      · simp only [Bool.not_true, Bool.false_or] at hfail
        rw [Bool.not_eq_true'] at hfail
        simp [hfail]

/-- C1 witness: a concrete failed resolution yields exactly the
📍-prefixed 4-decimal coordinate string. -/
theorem getAddressFromCoords_total_witness :
    (geocodeFetchFailed .exn = true) ∧
    getAddressFromCoords (mkRat 556050 10000) (mkRat 130038 10000) .exn
      = "📍 55.6050, 13.0038" := by
  refine ⟨by decide, ?_⟩
  rw [(getAddressFromCoords_total (mkRat 556050 10000) (mkRat 130038 10000)
    .exn).2.1 (by decide)]
  decide

/-- C1 counterexample: the legacy variant, at a concrete coordinate whose
request throws, returns the 6-decimal glyph-free coordinate string — not
the 📍-prefixed 4-decimal format the claim requires. -/
theorem getAddressFromCoordsLegacy_breaks_format :
    getAddressFromCoordsLegacy (mkRat 556050 10000) (mkRat 130038 10000) .exn
      = "55.605000, 13.003800" ∧
    getAddressFromCoordsLegacy (mkRat 556050 10000) (mkRat 130038 10000) .exn
      ≠ coordFallback (mkRat 556050 10000) (mkRat 130038 10000) := by
  decide

/-! ## C8 -/

/-- C8 (amended): every surfaced street-search result comes from a
retrieved item passing the route's filter `isStreet || isInMalmo` — a
disjunction, so being street-like suffices and neither the textual nor
the geometric Malmö test is required. -/
theorem searchStreets_surfaced_means_filtered (data : List NominatimItem)
    (p : ProcessedResult) (hp : p ∈ processResults data) :
    ∃ item, item ∈ data ∧ toProcessed item = p ∧
      (isStreet item || isInMalmoText item) = true := by
  simp only [processResults, List.mem_map] at hp
  obtain ⟨item, hmem, rfl⟩ := hp
  have h2 := List.mem_of_mem_take hmem
  rw [List.mem_filter] at h2
  exact ⟨item, h2.1, rfl, h2.2⟩

/-- A Nominatim item for a street in Stockholm: street-like, no textual
mention of Malmö, coordinates far outside the Malmö bounding box. -/
def stockholmStreet : NominatimItem :=
  { display_name := "Storgatan, Stockholm, Sverige"
    lat := mkRat 593325 10000
    lon := mkRat 180710 10000
    type := "primary"
    itemClass := "highway" }

/-- C8 witness: a concrete Malmö item is surfaced and the filter
disjunction holds for it. -/
theorem searchStreets_surfaced_means_filtered_witness :
    (toProcessed stockholmStreet ∈ processResults [stockholmStreet]) ∧
    ∃ item, item ∈ [stockholmStreet] ∧
      toProcessed item = toProcessed stockholmStreet ∧
      (isStreet item || isInMalmoText item) = true :=
  ⟨by decide,
    searchStreets_surfaced_means_filtered [stockholmStreet]
      (toProcessed stockholmStreet) (by decide)⟩

/-- C8 counterexample: a retrieved item that neither mentions Malmö in
its display name nor lies inside the Malmö bounding box is nevertheless
surfaced by the route, because it is street-like. -/
theorem stockholm_street_is_surfaced :
    processResults [stockholmStreet] = [toProcessed stockholmStreet] ∧
    isInMalmoText stockholmStreet = false ∧
    MalmoStreetService.isInMalmo stockholmStreet.lat stockholmStreet.lon
      = false := by
  decide

/-! ## C6 -/

/-- Filtering twice with the same predicate equals filtering once. -/
theorem filter_idem {α : Type} (p : α → Bool) (l : List α) :
    (l.filter p).filter p = l.filter p := by
  rw [List.filter_filter]
  simp [Bool.and_self]

/-- After dropping pickup/dropoff/demo markers, no pickup or dropoff
marker remains. -/
theorem resetFilter_no_pd (l : List MapMarker) :
    ((l.filter (fun m => m.type != MarkerType.pickup &&
        m.type != MarkerType.dropoff && m.type != MarkerType.demo)).filter
      (fun m => m.type == MarkerType.pickup ||
        m.type == MarkerType.dropoff)) = [] := by
  rw [List.filter_filter, List.filter_eq_nil_iff]
  intro m _
  cases h : m.type <;> simp [h]

/-- Dropping pickup/dropoff/demo markers leaves the current markers
exactly as they were. -/
theorem resetFilter_keeps_current (l : List MapMarker) :
    ((l.filter (fun m => m.type != MarkerType.pickup &&
        m.type != MarkerType.dropoff && m.type != MarkerType.demo)).filter
      (fun m => m.type == MarkerType.current))
      = l.filter (fun m => m.type == MarkerType.current) := by
  rw [List.filter_filter]
  apply List.filter_congr
  intro m _
  cases h : m.type <;> simp [h]

/-- Same for the earlier variant's filter, which keeps demo markers. -/
theorem resetFilterV1_keeps_current (l : List MapMarker) :
    ((l.filter (fun m => m.type != MarkerType.pickup &&
        m.type != MarkerType.dropoff)).filter
      (fun m => m.type == MarkerType.current))
      = l.filter (fun m => m.type == MarkerType.current) := by
  rw [List.filter_filter]
  apply List.filter_congr
  intro m _
  cases h : m.type <;> simp [h]

/-- C6: reset re-arms pickup, empties both address fields, removes every
pickup/dropoff marker while preserving the current (GPS) markers exactly,
and is idempotent — in the current component and in the earlier variant
alike. -/
theorem resetLocationSelection_spec (s : AppState) :
    (resetLocationSelection s).nextLocationSetting = .pickup ∧
    (resetLocationSelection s).pickupAddress = "" ∧
    (resetLocationSelection s).dropoffAddress = "" ∧
    (resetLocationSelection s).mapMarkers.filter
      (fun m => m.type == MarkerType.pickup ||
        m.type == MarkerType.dropoff) = [] ∧
    (resetLocationSelection s).mapMarkers.filter
        (fun m => m.type == MarkerType.current)
      = s.mapMarkers.filter (fun m => m.type == MarkerType.current) ∧
    resetLocationSelection (resetLocationSelection s)
      = resetLocationSelection s ∧
    (resetLocationSelectionV1 s).nextLocationSetting = .pickup ∧
    (resetLocationSelectionV1 s).pickupAddress = "" ∧
    (resetLocationSelectionV1 s).dropoffAddress = "" ∧
    (resetLocationSelectionV1 s).mapMarkers.filter
        (fun m => m.type == MarkerType.current)
      = s.mapMarkers.filter (fun m => m.type == MarkerType.current) ∧
    resetLocationSelectionV1 (resetLocationSelectionV1 s)
      = resetLocationSelectionV1 s := by
  refine ⟨rfl, rfl, rfl, ?_, ?_, ?_, rfl, rfl, rfl, ?_, ?_⟩
  · exact resetFilter_no_pd s.mapMarkers
  · exact resetFilter_keeps_current s.mapMarkers
  · simp [resetLocationSelection, filter_idem]
  · exact resetFilterV1_keeps_current s.mapMarkers
  · simp [resetLocationSelectionV1, filter_idem]

/-! ## C4 -/

/-- C4 (amended): the GPS success handler always writes the resolved
address into the pickup field, regardless of its prior content, replaces
the whole marker list with the single `current` marker, and never
changes the armed slot; the only-if-empty guard lives solely in the
separate auto-center effect, which leaves a non-blank pickup field
unchanged. -/
theorem gps_fix_behavior (lat lng : ℚ) (address : String) (s : AppState) :
    (getCurrentLocationSuccess lat lng address s).pickupAddress = address ∧
    (getCurrentLocationSuccess lat lng address s).mapMarkers
      = [⟨lat, lng, "📍 Your Exact Location", .current⟩] ∧
    (getCurrentLocationSuccess lat lng address s).nextLocationSetting
      = s.nextLocationSetting ∧
    ((s.pickupAddress.isEmpty || (jsTrim s.pickupAddress).isEmpty) = false →
      (autoCenterEffect s).pickupAddress = s.pickupAddress) := by
  refine ⟨rfl, rfl, rfl, fun h => ?_⟩
  unfold autoCenterEffect
  cases s.currentLocation with
  | none => rfl
  | some loc => simp [h]

/-- C4 witness: the theorem at a concrete state whose pickup field is
non-blank. -/
theorem gps_fix_behavior_witness :
    ((("Amiralsgatan 1, Malmö" : String).isEmpty ||
      (jsTrim "Amiralsgatan 1, Malmö").isEmpty) = false) ∧
    (autoCenterEffect { initState with
        pickupAddress := "Amiralsgatan 1, Malmö"
        currentLocation := some ⟨mkRat 556 10, mkRat 13 1, "Nobelvägen 2"⟩
      }).pickupAddress = "Amiralsgatan 1, Malmö" := by
  refine ⟨by decide, ?_⟩
  exact (gps_fix_behavior (mkRat 556 10) (mkRat 13 1) "Nobelvägen 2"
    { initState with
        pickupAddress := "Amiralsgatan 1, Malmö"
        currentLocation :=
          some ⟨mkRat 556 10, mkRat 13 1, "Nobelvägen 2"⟩ }).2.2.2
    (by decide)

/-- C4 counterexample: a GPS fix acquired while the pickup field is
non-empty overwrites it — the handler's `setValue('pickupAddress', …)`
is unconditional. -/
theorem gps_fix_overwrites_nonempty_pickup :
    (getCurrentLocationSuccess (mkRat 556 10) (mkRat 13 1) "Nobelvägen 2"
      { initState with pickupAddress := "Amiralsgatan 1, Malmö"
      }).pickupAddress = "Nobelvägen 2" ∧
    ("Nobelvägen 2" : String) ≠ "Amiralsgatan 1, Malmö" := by
  decide

/-! ## C9 -/

/-- Conjoining a predicate that is implied by the first does not change a
filter. -/
theorem filter_and_keep {α : Type} (p q : α → Bool)
    (h : ∀ a, p a = true → q a = true) (l : List α) :
    l.filter (fun a => p a && q a) = l.filter p := by
  apply List.filter_congr
  intro a _
  cases hp : p a
  · simp [hp]
  · simp [hp, h a hp]

/-- Conjoining a predicate can only shrink a filter. -/
theorem length_filter_and_le {α : Type} (p q : α → Bool) (l : List α) :
    (l.filter (fun a => p a && q a)).length ≤ (l.filter p).length := by
  induction l with
  | nil => simp
  | cons a t ih =>
    cases hp : p a <;> cases hq : q a <;>
      simp [List.filter_cons, hp, hq] <;> omega

/-- After `upsertSlotMarker`, the markers of the inserted slot are
exactly the new marker. -/
theorem upsert_filter_same (σ : Slot) (m : MapMarker) (t : MarkerType)
    (ht : σ.markerType = t) (hm : m.type = σ.markerType)
    (l : List MapMarker) :
    (upsertSlotMarker σ m l).filter (fun x => x.type == t)
      = [m] := by
  subst ht
  unfold upsertSlotMarker
  rw [List.filter_append, List.filter_filter]
  have h1 : l.filter (fun a =>
      (a.type == σ.markerType) &&
        (a.type != σ.markerType && a.type != MarkerType.demo)) = [] := by
    rw [List.filter_eq_nil_iff]
    intro a _
    cases a.type <;> cases σ <;> simp [Slot.markerType]
  rw [h1]
  simp [List.filter_cons, hm]

/-- After `upsertSlotMarker`, no demo marker remains. -/
theorem upsert_filter_demo (σ : Slot) (m : MapMarker)
    (hm : m.type = σ.markerType) (l : List MapMarker) :
    (upsertSlotMarker σ m l).filter
      (fun x => x.type == MarkerType.demo) = [] := by
  unfold upsertSlotMarker
  rw [List.filter_append, List.filter_filter]
  have h1 : l.filter (fun a =>
      (a.type == MarkerType.demo) &&
        (a.type != σ.markerType && a.type != MarkerType.demo)) = [] := by
    rw [List.filter_eq_nil_iff]
    intro a _
    cases a.type <;> cases σ <;> simp [Slot.markerType]
  rw [h1]
  cases σ <;> simp [List.filter_cons, hm, Slot.markerType]

/-- `upsertSlotMarker` leaves the markers of every slot other than the
inserted one and demo unchanged. -/
theorem upsert_filter_other (σ : Slot) (m : MapMarker) (t : MarkerType)
    (hm : m.type = σ.markerType) (ht1 : t ≠ σ.markerType)
    (ht2 : t ≠ MarkerType.demo) (l : List MapMarker) :
    (upsertSlotMarker σ m l).filter (fun x => x.type == t)
      = l.filter (fun x => x.type == t) := by
  unfold upsertSlotMarker
  rw [List.filter_append, List.filter_filter]
  rw [filter_and_keep (fun x => x.type == t)
    (fun x => x.type != σ.markerType && x.type != MarkerType.demo) ?_ l]
  · have hmt : ((m.type == t) : Bool) = false := by
      rw [hm]
      exact beq_eq_false_iff_ne.mpr fun hEq => ht1 hEq.symm
    simp [List.filter_cons, hmt]
  · intro a ha
    have hat : a.type = t := by simpa using ha
    simp [hat, ht1, ht2]

/-- `upsertSlotMarker` preserves the per-slot uniqueness invariant. -/
theorem upsert_preserves_markersOk (σ : Slot) (m : MapMarker)
    (hm : m.type = σ.markerType) (l : List MapMarker)
    (h : markersOk l = true) : markersOk (upsertSlotMarker σ m l) = true := by
  simp only [markersOk, countType, Bool.and_eq_true, decide_eq_true_eq]
    at h ⊢
  obtain ⟨⟨⟨⟨h1, h2⟩, h3⟩, h4⟩, h5⟩ := h
  cases σ with
  | pickup =>
    rw [upsert_filter_other _ _ _ hm (by decide) (by decide),
      upsert_filter_demo _ _ hm,
      upsert_filter_other _ _ MarkerType.destination hm (by decide)
        (by decide),
      upsert_filter_same Slot.pickup m MarkerType.pickup rfl hm,
      upsert_filter_other _ _ MarkerType.dropoff hm (by decide) (by decide)]
    exact ⟨⟨⟨⟨h1, by simp⟩, h3⟩, by simp⟩, h5⟩
  | dropoff =>
    rw [upsert_filter_other _ _ _ hm (by decide) (by decide),
      upsert_filter_demo _ _ hm,
      upsert_filter_other _ _ MarkerType.destination hm (by decide)
        (by decide),
      upsert_filter_other _ _ MarkerType.pickup hm (by decide) (by decide),
      upsert_filter_same Slot.dropoff m MarkerType.dropoff rfl hm]
    exact ⟨⟨⟨⟨h1, by simp⟩, h3⟩, h4⟩, by simp⟩

/-- The marker list `handleMapClick` produces is the slot upsert of the
captured slot's marker. -/
theorem handleMapClick_markers (lat lng : ℚ) (res : Except Unit String)
    (s : AppState) :
    (handleMapClick lat lng res s).mapMarkers
      = upsertSlotMarker s.nextLocationSetting
          ⟨lat, lng, clickMarkerTitle s.nextLocationSetting,
            s.nextLocationSetting.markerType⟩ s.mapMarkers := by
  cases hσ : s.nextLocationSetting <;> cases res <;>
    simp [handleMapClick, setField, hσ]

/-- The marker list `selectStreetSuggestion` produces is the slot upsert
of the chosen field's marker. -/
theorem selectSuggestion_markers (sug : ProcessedResult) (field : Slot)
    (s : AppState) :
    (selectStreetSuggestion sug field s).mapMarkers
      = upsertSlotMarker field
          ⟨sug.lat, sug.lon, clickMarkerTitle field, field.markerType⟩
          s.mapMarkers := by
  cases field <;> simp [selectStreetSuggestion, setField]

/-- C9 (amended): every marker-modifying operation preserves the
at-most-one-marker-per-slot invariant, a map click and a suggestion
selection replace exactly their slot's marker and leave current (GPS)
markers unchanged — but a GPS fix replaces the whole marker list with
the single current marker, so it does not preserve existing
pickup/dropoff markers. -/
theorem marker_slot_invariants (lat lng : ℚ) (res : Except Unit String)
    (sug : ProcessedResult) (field : Slot) (addr : String) (s : AppState)
    (h : markersOk s.mapMarkers = true) :
    markersOk (handleMapClick lat lng res s).mapMarkers = true ∧
    markersOk (selectStreetSuggestion sug field s).mapMarkers = true ∧
    markersOk (resetLocationSelection s).mapMarkers = true ∧
    markersOk (getCurrentLocationSuccess lat lng addr s).mapMarkers
      = true ∧
    markersOk (setDemoLocation s).mapMarkers = true ∧
    (handleMapClick lat lng res s).mapMarkers.filter
        (fun x => x.type == s.nextLocationSetting.markerType)
      = [⟨lat, lng, clickMarkerTitle s.nextLocationSetting,
          s.nextLocationSetting.markerType⟩] ∧
    (handleMapClick lat lng res s).mapMarkers.filter
        (fun x => x.type == MarkerType.current)
      = s.mapMarkers.filter (fun x => x.type == MarkerType.current) ∧
    (selectStreetSuggestion sug field s).mapMarkers.filter
        (fun x => x.type == MarkerType.current)
      = s.mapMarkers.filter (fun x => x.type == MarkerType.current) ∧
    (getCurrentLocationSuccess lat lng addr s).mapMarkers
      = [⟨lat, lng, "📍 Your Exact Location", MarkerType.current⟩] := by
  refine ⟨?_, ?_, ?_, ?_, ?_, ?_, ?_, ?_, rfl⟩
  · rw [handleMapClick_markers]
    exact upsert_preserves_markersOk _ _ rfl _ h
  · rw [selectSuggestion_markers]
    exact upsert_preserves_markersOk _ _ rfl _ h
  · simp only [markersOk, countType, resetLocationSelection,
      Bool.and_eq_true, decide_eq_true_eq] at h ⊢
    obtain ⟨⟨⟨⟨h1, h2⟩, h3⟩, h4⟩, h5⟩ := h
    refine ⟨⟨⟨⟨?_, ?_⟩, ?_⟩, ?_⟩, ?_⟩ <;>
      · rw [List.filter_filter]
        first
        | exact le_trans (length_filter_and_le _ _ _) h1
        | exact le_trans (length_filter_and_le _ _ _) h2
        | exact le_trans (length_filter_and_le _ _ _) h3
        | exact le_trans (length_filter_and_le _ _ _) h4
        | exact le_trans (length_filter_and_le _ _ _) h5
  · simp [markersOk, countType, getCurrentLocationSuccess,
      List.filter_cons]
  · simp [markersOk, countType, setDemoLocation, List.filter_cons]
  · rw [handleMapClick_markers]
    exact upsert_filter_same _ _ _ rfl rfl _
  · rw [handleMapClick_markers]
    cases hσ : s.nextLocationSetting <;>
      exact upsert_filter_other _ _ _ rfl (by decide) (by decide) _
  · rw [selectSuggestion_markers]
    cases field <;>
      exact upsert_filter_other _ _ _ rfl (by decide) (by decide) _

/-- C9 witness: the invariant preservation applied at a concrete state
satisfying the invariant. -/
theorem marker_slot_invariants_witness :
    (markersOk initState.mapMarkers = true) ∧
    markersOk (handleMapClick (mkRat 556 10) (mkRat 13 1) (.ok "A")
      initState).mapMarkers = true :=
  ⟨by decide,
    (marker_slot_invariants (mkRat 556 10) (mkRat 13 1) (.ok "A")
      ⟨"X", mkRat 1 1, mkRat 1 1, "X", "X", "t", "c"⟩ .pickup "addr"
      initState (by decide)).1⟩

/-- C9 counterexample: replacing the CURRENT marker via a GPS fix does
not leave an existing PICKUP marker unchanged — it removes it, because
the handler overwrites the entire marker list. -/
theorem gps_fix_removes_pickup_marker :
    (getCurrentLocationSuccess (mkRat 557 10) (mkRat 131 10) "Nobelvägen 2"
      { initState with mapMarkers :=
          [⟨mkRat 556 10, mkRat 13 1, "🚕 Pickup Location",
            MarkerType.pickup⟩] }).mapMarkers.filter
      (fun x => x.type == MarkerType.pickup) = [] ∧
    ({ initState with mapMarkers :=
        [⟨mkRat 556 10, mkRat 13 1, "🚕 Pickup Location",
          MarkerType.pickup⟩] } : AppState).mapMarkers.filter
      (fun x => x.type == MarkerType.pickup) ≠ [] := by
  decide

/-! ## C5 -/

/-- `handleMapClick` always toggles the armed slot to the opposite of the
value it captured at entry, whatever the resolution outcome. -/
theorem handleMapClick_next (lat lng : ℚ) (res : Except Unit String)
    (s : AppState) :
    (handleMapClick lat lng res s).nextLocationSetting
      = s.nextLocationSetting.other := by
  cases hσ : s.nextLocationSetting <;> cases res <;>
    simp [handleMapClick, setField, hσ]

/-- Sequentially processed clicks observe the alternating slot sequence,
whatever each resolution outcome is. -/
theorem runSeq_observed (clicks : List Click) (s : AppState) :
    (runSeq clicks s).2 = altSeq clicks.length s.nextLocationSetting := by
  induction clicks generalizing s with
  | nil => rfl
  | cons c cs ih =>
    simp [runSeq, altSeq, ih, handleMapClick_next]

/-- C5 (amended): when every click's resolution settles before the next
click occurs, N clicks starting from PICKUP observe the alternating
sequence PICKUP, DROPOFF, … regardless of each resolution's success or
failure; the slot toggle, however, runs only after the resolution
settles, so the alternation is not guaranteed for clicks that overlap an
in-flight resolution. -/
theorem sequential_clicks_alternate (clicks : List Click) (s : AppState)
    (h : s.nextLocationSetting = .pickup) :
    (runSeq clicks s).2 = altSeq clicks.length .pickup := by
  rw [runSeq_observed, h]

/-- C5 witness: two sequential clicks (one succeeding, one failing)
observe PICKUP then DROPOFF. -/
theorem sequential_clicks_alternate_witness :
    (initState.nextLocationSetting = Slot.pickup) ∧
    (runSeq [⟨mkRat 556 10, mkRat 130 10, .ok "Stortorget 1"⟩,
      ⟨mkRat 557 10, mkRat 131 10, .error ()⟩] initState).2
      = [Slot.pickup, Slot.dropoff] := by
  refine ⟨rfl, ?_⟩
  rw [sequential_clicks_alternate _ _ rfl]
  decide

/-- C5 counterexample: two clicks whose resolutions are both still in
flight when the second click occurs observe PICKUP, PICKUP — not the
alternating sequence — because the toggle only runs when a resolution
settles. -/
theorem overlapping_clicks_do_not_alternate :
    observedSlots (runClicks
      [⟨mkRat 556 10, mkRat 130 10, .ok "A"⟩,
        ⟨mkRat 557 10, mkRat 131 10, .ok "B"⟩]
      [.start 0, .start 1, .finish 0, .finish 1] ⟨initState, []⟩)
      = [Slot.pickup, Slot.pickup] ∧
    ([Slot.pickup, Slot.pickup] ≠ altSeq 2 Slot.pickup) := by
  decide

/-! ## C3 -/

/-- C3 (amended): the component applies suggestion responses in arrival
order with no sequence number and no staleness check — after any event
history, the arrival of any still-in-flight request overwrites the
UI-visible list with that request's response, even if a later-issued
request's response was already applied. -/
theorem arrival_applies_unconditionally (reqs : List SearchRequest)
    (evs : List SearchEvent) (s0 : SearchState) (i : ℕ)
    (r : SearchRequest) (hi : reqs.get? i = some r)
    (hf : ((runSearch reqs evs s0).inFlight.contains i) = true) :
    (runSearch reqs (evs ++ [.arrive i]) s0).suggestions = r.response := by
  unfold runSearch at *
  rw [List.foldl_append]
  have hmem : i ∈ (List.foldl (searchStep reqs) s0 evs).inFlight := by
    simpa using hf
  have hi2 : reqs[i]? = some r := by simpa using hi
  simp [searchStep, hmem, hi2]

/-- A concrete suggestion item for the query `"Malmo"`. -/
def sugMalmo : ProcessedResult :=
  ⟨"Malmö, Skåne län, Sverige", mkRat 556050 10000, mkRat 130038 10000,
    "Malmö", "Malmö, Skåne län, Sverige", "city", "place"⟩

/-- A concrete suggestion item for the query `"Malmogatan"`. -/
def sugMalmogatan : ProcessedResult :=
  ⟨"Malmögatan, Malmö, Sverige", mkRat 556000 10000, mkRat 130100 10000,
    "Malmögatan", "Malmögatan, Malmö, Sverige", "residential", "highway"⟩

/-- C3 witness: the amended theorem at a concrete history in which the
stale `"Malmo"` response arrives last and overwrites the list. -/
theorem arrival_applies_unconditionally_witness :
    ([⟨"Malmo", [sugMalmo]⟩, ⟨"Malmogatan", [sugMalmogatan]⟩].get? 0
      = some (⟨"Malmo", [sugMalmo]⟩ : SearchRequest)) ∧
    ((runSearch [⟨"Malmo", [sugMalmo]⟩, ⟨"Malmogatan", [sugMalmogatan]⟩]
      [.issue 0, .issue 1, .arrive 1] ⟨[], []⟩).inFlight.contains 0
      = true) ∧
    (runSearch [⟨"Malmo", [sugMalmo]⟩, ⟨"Malmogatan", [sugMalmogatan]⟩]
      [.issue 0, .issue 1, .arrive 1, .arrive 0] ⟨[], []⟩).suggestions
      = [sugMalmo] :=
  ⟨by decide, by decide,
    arrival_applies_unconditionally
      [⟨"Malmo", [sugMalmo]⟩, ⟨"Malmogatan", [sugMalmogatan]⟩]
      [.issue 0, .issue 1, .arrive 1] ⟨[], []⟩ 0 ⟨"Malmo", [sugMalmo]⟩
      (by decide) (by decide)⟩

/-- C3 counterexample: issue `"Malmo"` then `"Malmogatan"`; the
`"Malmogatan"` response arrives and is applied, then the stale `"Malmo"`
response arrives — and replaces it. The UI-visible list ends up being
the one for `"Malmo"`, not `"Malmogatan"`: there is no sequence number
guarding application. -/
theorem stale_response_overwrites_newer :
    (runSearch [⟨"Malmo", [sugMalmo]⟩, ⟨"Malmogatan", [sugMalmogatan]⟩]
      [.issue 0, .issue 1, .arrive 1, .arrive 0] ⟨[], []⟩).suggestions
      = [sugMalmo] ∧
    ([sugMalmo] : List ProcessedResult) ≠ [sugMalmogatan] := by
  decide

/-! ## C7 -/

/-- C7: a query shorter than 2 characters clears the suggestion list
without issuing a provider call; every provider call ever issued from
the debounced keystroke timeline carries a query of length at least 2;
and a second keystroke within the 300ms debounce window cancels the
first's pending call, so exactly one provider call is issued, for the
most recent query. -/
theorem autocomplete_debounce :
    (∀ (q : String) (field : Slot) (svc : Except Unit (List ProcessedResult))
      (s : AppState), q.length < 2 →
        (searchStreetsSync q field svc s).1.streetSuggestions = [] ∧
        (searchStreetsSync q field svc s).2 = false) ∧
    (∀ (evs : List TypeEvent) (q : String),
      q ∈ providerCalls evs → 2 ≤ q.length) ∧
    (∀ (t1 t2 : ℕ) (q1 q2 : String), t2 < t1 + 300 → 2 ≤ q2.length →
      providerCalls [⟨t1, q1⟩, ⟨t2, q2⟩] = [q2]) := by
  refine ⟨?_, ?_, ?_⟩
  · intro q field svc s h
    constructor
    · cases field <;> simp [searchStreetsSync, setShow, h]
    · simp [searchStreetsSync, h]
  · intro evs q hq
    simp only [providerCalls, List.mem_filter, decide_eq_true_eq] at hq
    exact hq.2
  · intro t1 t2 q1 q2 ht hq
    simp [providerCalls, firedQueries, ht, hq]

/-- C7 witness: `"M"` issues no call and clears the list; `"Ma"` then
`"Mal"` 100ms later issues exactly one call, for `"Mal"`. -/
theorem autocomplete_debounce_witness :
    (("M" : String).length < 2 ∧
      (searchStreetsSync "M" .pickup (.ok [sugMalmo])
        initState).1.streetSuggestions = [] ∧
      (searchStreetsSync "M" .pickup (.ok [sugMalmo]) initState).2
        = false) ∧
    ((100 : ℕ) < 0 + 300 ∧ 2 ≤ ("Mal" : String).length ∧
      providerCalls [⟨0, "Ma"⟩, ⟨100, "Mal"⟩] = ["Mal"]) := by
  constructor
  · exact ⟨by decide,
      autocomplete_debounce.1 "M" .pickup (.ok [sugMalmo]) initState
        (by decide)⟩
  · exact ⟨by decide, by decide,
      autocomplete_debounce.2.2 0 100 "Ma" "Mal" (by decide) (by decide)⟩

end AnayaTaxi
